import Mathlib

/-!
Verification of the URL phishing-risk scorer (`analyzeUrl` in the `UrlChecker`
component).  The definitions below are a shallow embedding of the scoring
function: strings are handled through their character lists so that every
operation is executable and kernel-reducible.  The numbers of the source are
plain Nats here: every weight added is a small positive constant and the
source never subtracts, so no overflow modelling is needed.
-/

namespace TalkSafeGuard

/-- `hasLead p s` holds when the character list `p` occurs at the start of
`s`; this models JavaScript `String.prototype.startsWith` on `s`. -/
def hasLead : List Char → List Char → Bool
  | [], _ => true
  | _ :: _, [] => false
  | p :: ps, c :: cs => p == c && hasLead ps cs

/-- `hasSub p s` holds when `p` occurs contiguously somewhere in `s`; this
models JavaScript `String.prototype.includes`. -/
def hasSub : List Char → List Char → Bool
  | p, [] => hasLead p []
  | p, c :: cs => hasLead p (c :: cs) || hasSub p cs

/-- `s.startsWith(p)` of JavaScript. -/
def strStarts (s p : String) : Bool :=
  hasLead p.data s.data

/-- `s.endsWith(p)` of JavaScript. -/
def strEnds (s p : String) : Bool :=
  hasLead p.data.reverse s.data.reverse

/-- `s.includes(p)` of JavaScript. -/
def strContains (s p : String) : Bool :=
  hasSub p.data s.data

/-- `s.toLowerCase()` of JavaScript; the inputs the scorer handles are ASCII,
for which `Char.toLower` agrees with the JavaScript conversion. -/
def lowerStr (s : String) : String :=
  String.mk (s.data.map Char.toLower)

/-- `s.split(sep)` of JavaScript for a one-character separator: `""` splits to
`[""]`, separators at the ends produce empty segments. -/
def splitOnChar (sep : Char) : List Char → List (List Char)
  | [] => [[]]
  | c :: cs =>
    match splitOnChar sep cs with
    | [] => [[]]
    | h :: t => if c == sep then [] :: h :: t else (c :: h) :: t

/-- Consume a maximal run of decimal digits. -/
def dropDigits : List Char → List Char
  | [] => []
  | c :: cs => if c.isDigit then dropDigits cs else c :: cs

/-- Match one-or-more decimal digits at the start, returning the remainder;
greedy matching is exact here because a digit never equals a dot. -/
def digits1 : List Char → Option (List Char)
  | [] => none
  | c :: cs => if c.isDigit then some (dropDigits cs) else none

/-- Match a literal dot at the start, returning the remainder. -/
def expectDot : List Char → Option (List Char)
  | '.' :: r => some r
  | _ => none

/-- The test of the regular expression `^\d+\.\d+\.\d+\.\d+` from line 112 of
the source: a leading dotted quad of digit runs, anything afterwards. -/
def ipQuadTest (l : List Char) : Bool :=
  (((((((digits1 l).bind expectDot).bind digits1).bind expectDot).bind
      digits1).bind expectDot).bind digits1).isSome

/-- The hostname and pathname the scorer reads off the parsed URL object. -/
structure URLParts where
  hostname : String
  pathname : String
deriving DecidableEq

/-- Split off the authority part: everything up to the first `/`, `?` or `#`
of the scheme-stripped remainder, returned with what follows. -/
def splitAuthority : List Char → List Char × List Char
  | [] => ([], [])
  | c :: cs =>
    if c == '/' || c == '?' || c == '#' then ([], c :: cs)
    else
      let p := splitAuthority cs
      (c :: p.1, p.2)

/-- The host inside an authority: the part after the last `@` (userinfo) and
before the first `:` thereafter (port). -/
def hostFromAuth (auth : List Char) : List Char :=
  ((auth.reverse.takeWhile (fun c => c != '@')).reverse).takeWhile
    (fun c => c != ':')

/-- The pathname: the segment from a leading `/` up to `?` or `#`, and `"/"`
when the authority is followed by no slash. -/
def takePath (after : List Char) : List Char :=
  match after with
  | '/' :: _ => after.takeWhile (fun c => c != '?' && c != '#')
  | _ => ['/']

/-- Parse the part of a URL that follows the scheme delimiter. -/
def parseAfterScheme (rest : List Char) : Option URLParts :=
  let p := splitAuthority rest
  let host := (hostFromAuth p.1).map Char.toLower
  match host with
  | [] => none
  | _ :: _ => some ⟨String.mk host, String.mk (takePath p.2)⟩

/-- Modelled from the spec: the browser `URL` constructor invoked at line 67
of the source, which is platform code and not part of the repository.  The
spec (§4.1 Normalization) requires parsing the normalized string into a
lowercased hostname and a path, with invalid URL syntax the only caught
failure.  The model covers the `http`/`https` inputs the scorer constructs:
the authority is cut at the first `/`, `?` or `#`, userinfo and port are
stripped from the host, the host is lowercased, and an empty host — such as
for the input `"http://"` — is the modelled parse failure. -/
def parseURL (s : String) : Option URLParts :=
  let l := s.data
  if hasLead "http://".data l then parseAfterScheme (l.drop 7)
  else if hasLead "https://".data l then parseAfterScheme (l.drop 8)
  else none

/-- The status enumeration of `UrlCheckResult` (source lines 8-12). -/
inductive Status where
  | safe
  | suspicious
  | dangerous
deriving DecidableEq

/-- The result record of the scorer (source lines 8-12). -/
structure UrlCheckResult where
  status : Status
  score : Nat
  reasons : List String
deriving DecidableEq

/-- The keyword table of source lines 20-24. -/
def suspiciousKeywords : List String :=
  ["login", "verify", "update", "urgent", "suspend", "confirm", "security",
   "paypal", "amazon", "netflix", "microsoft", "google", "facebook",
   "bank", "secure", "account", "expired", "limited", "restricted"]

/-- The allowlist of source lines 162-167. -/
def legitimateDomains : List String :=
  ["login.microsoftonline.com", "accounts.google.com", "secure.paypal.com",
   "login.live.com"]

/-- Source lines 160-170.  The `keyword` argument is accepted and ignored,
exactly as in the source: the substring check against the allowlist does not
depend on which keyword triggered it. -/
def isLegitimateUse (domain : String) (_keyword : String) : Bool :=
  legitimateDomains.any (fun legit => strContains domain legit)

/-- Rule 1, source lines 72-80: suspicious keyword in the hostname without an
allowlist exemption. -/
def rule1 (domain : String) : Nat × List String :=
  if suspiciousKeywords.any
      (fun keyword => strContains domain keyword
        && !isLegitimateUse domain keyword) then
    (30, ["Domain contains suspicious keywords"])
  else (0, [])

/-- Rule 2, source lines 82-87: suspicious keyword in the path. -/
def rule2 (path : String) : Nat × List String :=
  if suspiciousKeywords.any (fun keyword => strContains path keyword) then
    (20, ["URL path contains phishing-related terms"])
  else (0, [])

/-- The shortener table of source line 90. -/
def shorteners : List String :=
  ["bit.ly", "tinyurl.com", "t.co", "short.link", "tiny.cc"]

/-- Rule 3, source lines 89-94: URL-shortener domain. -/
def rule3 (domain : String) : Nat × List String :=
  if shorteners.any (fun shortener => strContains domain shortener) then
    (25, ["Uses URL shortening service"])
  else (0, [])

/-- Rule 4, source lines 96-100: hyphen pattern. -/
def rule4 (domain : String) : Nat × List String :=
  if strContains domain "-" && decide ((splitOnChar '-' domain.data).length > 3) then
    (15, ["Domain has suspicious hyphen pattern"])
  else (0, [])

/-- The brand table of source line 103. -/
def commonBrands : List String :=
  ["paypal", "amazon", "microsoft", "google", "apple", "netflix"]

/-- The per-brand condition of source line 105. -/
def brandHit (domain brand : String) : Bool :=
  strContains domain brand && !strEnds domain (brand ++ ".com")
    && !strEnds domain (brand ++ ".net")

/-- Rule 5, source lines 102-109: the `forEach` over the brand table,
accumulating 40 and one reason per matching brand. -/
def rule5 (domain : String) : Nat × List String :=
  commonBrands.foldl
    (fun acc brand =>
      if brandHit domain brand then
        (acc.1 + 40, acc.2 ++ ["Potentially impersonating " ++ brand])
      else acc)
    (0, [])

/-- Rule 6, source lines 111-115: IP-literal hostname. -/
def rule6 (domain : String) : Nat × List String :=
  if ipQuadTest domain.data then
    (35, ["Uses IP address instead of domain name"])
  else (0, [])

/-- Rule 7, source lines 117-122: excessive subdomains. -/
def rule7 (domain : String) : Nat × List String :=
  if (splitOnChar '.' domain.data).length > 4 then
    (20, ["Excessive subdomains detected"])
  else (0, [])

/-- Rule 8, source lines 124-128: plain-http scheme on the normalized
string. -/
def rule8 (isHttp : Bool) : Nat × List String :=
  if isHttp then (15, ["Not using secure HTTPS connection"])
  else (0, [])

/-- The straight-line accumulation of `riskScore` and `reasons` over source
lines 72-128, rule by rule in source order: the score is the sum of the rule
contributions and the reasons are their concatenation in firing order. -/
def rulesScore (domain path : String) (isHttp : Bool) : Nat × List String :=
  let r1 := rule1 domain
  let r2 := rule2 path
  let r3 := rule3 domain
  let r4 := rule4 domain
  let r5 := rule5 domain
  let r6 := rule6 domain
  let r7 := rule7 domain
  let r8 := rule8 isHttp
  (r1.1 + r2.1 + r3.1 + r4.1 + r5.1 + r6.1 + r7.1 + r8.1,
   r1.2 ++ r2.2 ++ r3.2 ++ r4.2 ++ r5.2 ++ r6.2 ++ r7.2 ++ r8.2)

/-- The classification of source lines 130-149: thresholds on the raw
accumulated score, a prepended summary reason, the safe-path default reason,
and the final clamp `Math.min(riskScore, 100)`. -/
def classify (riskScore : Nat) (reasons : List String) : UrlCheckResult :=
  if 50 ≤ riskScore then
    ⟨Status.dangerous, min riskScore 100, "High risk of phishing" :: reasons⟩
  else if 25 ≤ riskScore then
    ⟨Status.suspicious, min riskScore 100,
      "Potential security concerns" :: reasons⟩
  else
    ⟨Status.safe, min riskScore 100,
      if reasons.length = 0 then ["No obvious red flags detected"]
      else reasons⟩

/-- The normalization of source lines 62-65: prepend `https://` when neither
scheme marker leads the input. -/
def normalizeUrl (inputUrl : String) : String :=
  if !strStarts inputUrl "http://" && !strStarts inputUrl "https://" then
    "https://" ++ inputUrl
  else inputUrl

/-- The body of the `try` block, source lines 67-149, applied to the parsed
URL object. -/
def analyzeParsed (urlToCheck : String) (urlObj : URLParts) : UrlCheckResult :=
  let domain := lowerStr urlObj.hostname
  let path := lowerStr urlObj.pathname
  let r := rulesScore domain path (strStarts urlToCheck "http://")
  classify r.1 r.2

/-- `analyzeUrl`, source lines 56-158: normalize, parse, score; the `catch`
branch of lines 151-157 yields the fixed fallback result. -/
def analyzeUrl (inputUrl : String) : UrlCheckResult :=
  let urlToCheck := normalizeUrl inputUrl
  match parseURL urlToCheck with
  | some urlObj => analyzeParsed urlToCheck urlObj
  | none =>
    ⟨Status.suspicious, 30,
      ["Invalid URL format", "Could not properly analyze URL"]⟩

/-- The raw accumulated weight before the clamp of source line 147 (the value
of `riskScore` at line 145); on the catch path the score 30 is assigned
directly, with no clamping involved. -/
def rawScore (inputUrl : String) : Nat :=
  let urlToCheck := normalizeUrl inputUrl
  match parseURL urlToCheck with
  | some urlObj =>
    (rulesScore (lowerStr urlObj.hostname) (lowerStr urlObj.pathname)
      (strStarts urlToCheck "http://")).1
  | none => 30

/-- The brands of the table that match a given hostname. -/
def matchedBrands (domain : String) : List String :=
  commonBrands.filter (fun brand => brandHit domain brand)

/-- Every evaluation either takes the catch path, producing the fixed
fallback record, or classifies the accumulated rule score of the parsed
hostname and path. -/
lemma analyzeUrl_eq_cases (s : String) :
    (parseURL (normalizeUrl s) = none
      ∧ analyzeUrl s = ⟨Status.suspicious, 30,
          ["Invalid URL format", "Could not properly analyze URL"]⟩)
    ∨ ∃ u, parseURL (normalizeUrl s) = some u
        ∧ analyzeUrl s =
            classify
              (rulesScore (lowerStr u.hostname) (lowerStr u.pathname)
                (strStarts (normalizeUrl s) "http://")).1
              (rulesScore (lowerStr u.hostname) (lowerStr u.pathname)
                (strStarts (normalizeUrl s) "http://")).2 := by
  cases h : parseURL (normalizeUrl s) with
  | none =>
    left
    refine ⟨rfl, ?_⟩
    simp only [analyzeUrl, h]
  | some u =>
    right
    refine ⟨u, rfl, ?_⟩
    simp only [analyzeUrl, analyzeParsed, h]

/-- The returned score is always the clamped accumulated weight. -/
lemma classify_score (n : Nat) (rs : List String) :
    (classify n rs).score = min n 100 := by
  unfold classify
  split
  · rfl
  · split <;> rfl

/-- The classification thresholds hold of the clamped score as well as of the
raw one. -/
lemma classify_bands (n : Nat) (rs : List String) :
    ((classify n rs).status = Status.dangerous ↔ 50 ≤ (classify n rs).score)
    ∧ ((classify n rs).status = Status.suspicious
        ↔ 25 ≤ (classify n rs).score ∧ (classify n rs).score < 50)
    ∧ ((classify n rs).status = Status.safe ↔ (classify n rs).score < 25) := by
  unfold classify
  by_cases h1 : 50 ≤ n
  · simp only [if_pos h1]
    refine ⟨?_, ?_, ?_⟩ <;> simp <;> omega
  · by_cases h2 : 25 ≤ n
    · simp only [if_neg h1, if_pos h2]
      refine ⟨?_, ?_, ?_⟩ <;> simp <;> omega
    · simp only [if_neg h1, if_neg h2]
      refine ⟨?_, ?_, ?_⟩ <;> simp <;> omega

/-- The brand fold adds 40 and appends one reason per matching brand of any
brand list, starting from any accumulator. -/
lemma brand_foldl_eq (domain : String) (l : List String)
    (acc : Nat × List String) :
    l.foldl
      (fun acc brand =>
        if brandHit domain brand then
          (acc.1 + 40, acc.2 ++ ["Potentially impersonating " ++ brand])
        else acc)
      acc
    = (acc.1 + 40 * (l.filter (fun brand => brandHit domain brand)).length,
       acc.2 ++ (l.filter (fun brand => brandHit domain brand)).map
         (fun brand => "Potentially impersonating " ++ brand)) := by
  induction l generalizing acc with
  | nil => simp
  | cons b bs ih =>
    simp only [List.foldl_cons, List.filter_cons]
    by_cases hb : brandHit domain b
    · rw [if_pos hb, ih]
      simp [hb, Nat.mul_succ]
      omega
    · rw [if_neg hb, ih]
      simp [hb]

/-- Rule 5 in closed form: 40 points and one impersonation reason for each
matching brand of the table. -/
lemma rule5_eq (domain : String) :
    rule5 domain
    = (40 * (matchedBrands domain).length,
       (matchedBrands domain).map
         (fun brand => "Potentially impersonating " ++ brand)) := by
  unfold rule5 matchedBrands
  rw [brand_foldl_eq]
  simp

/-- Each rule's weight is at most 40 times the number of reasons it
appends. -/
lemma rule1_bound (domain : String) :
    (rule1 domain).1 ≤ 40 * (rule1 domain).2.length := by
  unfold rule1
  split <;> simp

/-- The path-keyword rule contributes at most 40 per appended reason. -/
lemma rule2_bound (path : String) :
    (rule2 path).1 ≤ 40 * (rule2 path).2.length := by
  unfold rule2
  split <;> simp

/-- The shortener rule contributes at most 40 per appended reason. -/
lemma rule3_bound (domain : String) :
    (rule3 domain).1 ≤ 40 * (rule3 domain).2.length := by
  unfold rule3
  split <;> simp

/-- The hyphen rule contributes at most 40 per appended reason. -/
lemma rule4_bound (domain : String) :
    (rule4 domain).1 ≤ 40 * (rule4 domain).2.length := by
  unfold rule4
  split <;> simp

/-- The brand rule contributes exactly 40 per appended reason. -/
lemma rule5_bound (domain : String) :
    (rule5 domain).1 ≤ 40 * (rule5 domain).2.length := by
  rw [rule5_eq]
  simp

/-- The IP rule contributes at most 40 per appended reason. -/
lemma rule6_bound (domain : String) :
    (rule6 domain).1 ≤ 40 * (rule6 domain).2.length := by
  unfold rule6
  split <;> simp

/-- The subdomain rule contributes at most 40 per appended reason. -/
lemma rule7_bound (domain : String) :
    (rule7 domain).1 ≤ 40 * (rule7 domain).2.length := by
  unfold rule7
  split <;> simp

/-- The scheme rule contributes at most 40 per appended reason. -/
lemma rule8_bound (isHttp : Bool) :
    (rule8 isHttp).1 ≤ 40 * (rule8 isHttp).2.length := by
  unfold rule8
  split <;> simp

/-- The accumulated weight never exceeds 40 times the number of collected
rule reasons. -/
lemma rulesScore_bound (domain path : String) (isHttp : Bool) :
    (rulesScore domain path isHttp).1
      ≤ 40 * (rulesScore domain path isHttp).2.length := by
  have h1 := rule1_bound domain
  have h2 := rule2_bound path
  have h3 := rule3_bound domain
  have h4 := rule4_bound domain
  have h5 := rule5_bound domain
  have h6 := rule6_bound domain
  have h7 := rule7_bound domain
  have h8 := rule8_bound isHttp
  unfold rulesScore
  simp only [List.length_append]
  omega

/-- The classification never returns an empty reason list. -/
lemma classify_reasons_ne_nil (n : Nat) (rs : List String) :
    (classify n rs).reasons ≠ [] := by
  unfold classify
  split
  · simp
  · split
    · simp
    · show (if rs.length = 0 then _ else rs) ≠ []
      split
      · simp
      · rename_i hlen
        intro hc
        exact hlen (by rw [hc]; rfl)

/-- C1, counterexample: the input `"https://www.google.com"` does not return
score 0, status safe with the single default reason — the hostname contains
the keyword `"google"` and `www.google.com` is not on the allowlist, so the
keyword rule fires. -/
theorem google_scenario_not_safe :
    ¬ (analyzeUrl "https://www.google.com"
        = ⟨Status.safe, 0, ["No obvious red flags detected"]⟩) := by
  decide

/-- C1, amended: on the input `"https://www.google.com"` the keyword rule
fires (+30), so the result has score 30, status suspicious, and the reasons
are the prepended summary followed by the keyword reason. -/
theorem google_scenario_actual :
    analyzeUrl "https://www.google.com"
    = ⟨Status.suspicious, 30,
        ["Potential security concerns",
         "Domain contains suspicious keywords"]⟩ := by
  decide

/-- C2: for every input, status is dangerous iff the returned score is at
least 50, suspicious iff it lies in `[25, 50)`, and safe iff it is below 25;
this holds although the code branches on the pre-clamp weight while the
returned score is the clamped value. -/
theorem status_bands_of_score (s : String) :
    ((analyzeUrl s).status = Status.dangerous ↔ 50 ≤ (analyzeUrl s).score)
    ∧ ((analyzeUrl s).status = Status.suspicious
        ↔ 25 ≤ (analyzeUrl s).score ∧ (analyzeUrl s).score < 50)
    ∧ ((analyzeUrl s).status = Status.safe
        ↔ (analyzeUrl s).score < 25) := by
  rcases analyzeUrl_eq_cases s with ⟨_, he⟩ | ⟨u, _, he⟩
  · rw [he]
    decide
  · rw [he]
    exact classify_bands _ _

/-- C3: for every input the returned score is at most 100, and whenever the
raw accumulated weight exceeds 100 the returned score is exactly 100 — a
clamp with min, not a reduction modulo. -/
theorem score_clamped_le_100 (s : String) :
    (analyzeUrl s).score ≤ 100
    ∧ (100 < rawScore s → (analyzeUrl s).score = 100) := by
  rcases analyzeUrl_eq_cases s with ⟨hp, he⟩ | ⟨u, hp, he⟩
  · have hr : rawScore s = 30 := by simp only [rawScore, hp]
    rw [he, hr]
    exact ⟨by decide, fun h => absurd h (by decide)⟩
  · have hr : rawScore s
        = (rulesScore (lowerStr u.hostname) (lowerStr u.pathname)
            (strStarts (normalizeUrl s) "http://")).1 := by
      simp only [rawScore, hp]
    rw [he, hr, classify_score]
    constructor
    · exact Nat.min_le_right _ _
    · intro h
      omega

/-- C3, witness: a multi-brand input whose raw weight 185 exceeds 100 and
whose returned score is clamped to exactly 100. -/
theorem score_clamped_le_100_witness :
    100 < rawScore "http://paypal-amazon-google.x.co/login"
    ∧ (analyzeUrl "http://paypal-amazon-google.x.co/login").score = 100 :=
  ⟨by decide,
   (score_clamped_le_100 "http://paypal-amazon-google.x.co/login").2
     (by decide)⟩

/-- C4: the reasons list of the result is never empty for any input: the
safe branch inserts the default string when no rule fired, and the parse
failure path returns the two fixed diagnostic reasons. -/
theorem reasons_never_empty (s : String) :
    (analyzeUrl s).reasons ≠ [] := by
  rcases analyzeUrl_eq_cases s with ⟨_, he⟩ | ⟨u, _, he⟩
  · rw [he]
    decide
  · rw [he]
    exact classify_reasons_ne_nil _ _

/-- C5: the scorer is a total function — no error reaches the caller — and
whenever parsing of the normalized string fails it returns the deterministic
fallback: status suspicious, score 30, the two fixed diagnostic reasons. -/
theorem parse_failure_returns_fallback (s : String)
    (h : parseURL (normalizeUrl s) = none) :
    analyzeUrl s
    = ⟨Status.suspicious, 30,
        ["Invalid URL format", "Could not properly analyze URL"]⟩ := by
  simp only [analyzeUrl, h]

/-- C5, witness: the input `"http://"` has an empty host, its parse fails,
and the result is the fixed fallback. -/
theorem parse_failure_returns_fallback_witness :
    parseURL (normalizeUrl "http://") = none
    ∧ analyzeUrl "http://"
        = ⟨Status.suspicious, 30,
            ["Invalid URL format", "Could not properly analyze URL"]⟩ :=
  ⟨by decide, parse_failure_returns_fallback "http://" (by decide)⟩

/-- C6: on every successfully parsed input the brand rule contributes
cumulatively — 40 points and one impersonation reason for each brand of the
table that occurs in the lowercased hostname without the hostname ending in
that brand's `.com` or `.net` domain — while every other rule appends at
most one reason per evaluation. -/
theorem brand_rule_cumulative (s : String) (u : URLParts)
    (_h : parseURL (normalizeUrl s) = some u) :
    (rule5 (lowerStr u.hostname)).1
        = 40 * (matchedBrands (lowerStr u.hostname)).length
    ∧ (rule5 (lowerStr u.hostname)).2
        = (matchedBrands (lowerStr u.hostname)).map
            (fun brand => "Potentially impersonating " ++ brand)
    ∧ (rule1 (lowerStr u.hostname)).2.length ≤ 1
    ∧ (rule2 (lowerStr u.pathname)).2.length ≤ 1
    ∧ (rule3 (lowerStr u.hostname)).2.length ≤ 1
    ∧ (rule4 (lowerStr u.hostname)).2.length ≤ 1
    ∧ (rule6 (lowerStr u.hostname)).2.length ≤ 1
    ∧ (rule7 (lowerStr u.hostname)).2.length ≤ 1
    ∧ (rule8 (strStarts (normalizeUrl s) "http://")).2.length ≤ 1 := by
  refine ⟨?_, ?_, ?_, ?_, ?_, ?_, ?_, ?_, ?_⟩
  · rw [rule5_eq]
  · rw [rule5_eq]
  · unfold rule1
    split <;> simp
  · unfold rule2
    split <;> simp
  · unfold rule3
    split <;> simp
  · unfold rule4
    split <;> simp
  · unfold rule6
    split <;> simp
  · unfold rule7
    split <;> simp
  · unfold rule8
    split <;> simp

/-- C6, witness: a hostname carrying two brand names gains 40 for each of
them. -/
theorem brand_rule_cumulative_witness :
    parseURL (normalizeUrl "https://paypal-amazon.evil.com")
        = some ⟨"paypal-amazon.evil.com", "/"⟩
    ∧ (rule5 (lowerStr "paypal-amazon.evil.com")).1
        = 40 * (matchedBrands (lowerStr "paypal-amazon.evil.com")).length :=
  ⟨by decide,
   (brand_rule_cumulative "https://paypal-amazon.evil.com"
     ⟨"paypal-amazon.evil.com", "/"⟩ (by decide)).1⟩

/-- C7: on `"http://secure-login-verify-account.badsite.com"` the scheme
rule adds 15, the hyphen rule adds 15 with the hostname splitting into 4
hyphen segments, and the keyword rule adds 30 exactly once although several
keywords match, so the score reaches at least 50 and the status is
dangerous. -/
theorem badsite_scenario_dangerous :
    rule8 (strStarts
        (normalizeUrl "http://secure-login-verify-account.badsite.com")
        "http://")
      = (15, ["Not using secure HTTPS connection"])
    ∧ rule4 "secure-login-verify-account.badsite.com"
        = (15, ["Domain has suspicious hyphen pattern"])
    ∧ (splitOnChar '-'
        "secure-login-verify-account.badsite.com".data).length = 4
    ∧ rule1 "secure-login-verify-account.badsite.com"
        = (30, ["Domain contains suspicious keywords"])
    ∧ 50 ≤ (analyzeUrl "http://secure-login-verify-account.badsite.com").score
    ∧ (analyzeUrl "http://secure-login-verify-account.badsite.com").status
        = Status.dangerous := by
  decide

/-- C8: on `"http://192.168.1.1/login"` exactly the scheme rule (+15), the
IP-literal rule (+35) and the path-keyword rule (+20) fire, every other rule
contributes nothing, and the result is score 70 with status dangerous. -/
theorem ip_login_scenario_score_70 :
    analyzeUrl "http://192.168.1.1/login"
      = ⟨Status.dangerous, 70,
          ["High risk of phishing", "URL path contains phishing-related terms",
           "Uses IP address instead of domain name",
           "Not using secure HTTPS connection"]⟩
    ∧ rule8 (strStarts (normalizeUrl "http://192.168.1.1/login") "http://")
        = (15, ["Not using secure HTTPS connection"])
    ∧ rule6 "192.168.1.1" = (35, ["Uses IP address instead of domain name"])
    ∧ rule2 "/login" = (20, ["URL path contains phishing-related terms"])
    ∧ rule1 "192.168.1.1" = (0, [])
    ∧ rule3 "192.168.1.1" = (0, [])
    ∧ rule4 "192.168.1.1" = (0, [])
    ∧ rule5 "192.168.1.1" = (0, [])
    ∧ rule7 "192.168.1.1" = (0, []) := by
  decide

/-- C9: allowlist membership exempts only the keyword rule, not the brand
rule — `login.microsoftonline.com` is on the allowlist, so the keyword rule
stays silent, yet the hostname contains `microsoft` without ending in
`microsoft.com` or `microsoft.net`, so the brand rule adds 40 and the result
is score 40, status suspicious, with the summary and the impersonation
reason. -/
theorem allowlist_exempts_only_keyword_rule :
    isLegitimateUse "login.microsoftonline.com" "microsoft" = true
    ∧ rule1 "login.microsoftonline.com" = (0, [])
    ∧ rule5 "login.microsoftonline.com"
        = (40, ["Potentially impersonating microsoft"])
    ∧ analyzeUrl "https://login.microsoftonline.com"
        = ⟨Status.suspicious, 40,
            ["Potential security concerns",
             "Potentially impersonating microsoft"]⟩ := by
  decide

/-- C10: a dangerous result always carries at least three reasons: the
weight needed for dangerous is 50, no rule contributes more than 40 per
appended reason, so at least two rule reasons are collected, and the
dangerous summary is prepended; the parse-failure path is never
dangerous. -/
theorem dangerous_implies_three_reasons (s : String)
    (h : (analyzeUrl s).status = Status.dangerous) :
    3 ≤ (analyzeUrl s).reasons.length := by
  rcases analyzeUrl_eq_cases s with ⟨_, he⟩ | ⟨u, _, he⟩
  · rw [he] at h
    exact Status.noConfusion h
  · rw [he] at h ⊢
    have hb := rulesScore_bound (lowerStr u.hostname) (lowerStr u.pathname)
      (strStarts (normalizeUrl s) "http://")
    set R := rulesScore (lowerStr u.hostname) (lowerStr u.pathname)
      (strStarts (normalizeUrl s) "http://") with hR
    unfold classify at h ⊢
    by_cases h1 : 50 ≤ R.1
    · rw [if_pos h1]
      show 3 ≤ ("High risk of phishing" :: R.2).length
      simp only [List.length_cons]
      omega
    · exfalso
      rw [if_neg h1] at h
      by_cases h2 : 25 ≤ R.1
      · rw [if_pos h2] at h
        exact Status.noConfusion h
      · rw [if_neg h2] at h
        exact Status.noConfusion h

/-- C10, witness: the dangerous result for `"http://192.168.1.1/login"`
carries four reasons. -/
theorem dangerous_implies_three_reasons_witness :
    (analyzeUrl "http://192.168.1.1/login").status = Status.dangerous
    ∧ 3 ≤ (analyzeUrl "http://192.168.1.1/login").reasons.length :=
  ⟨by decide,
   dangerous_implies_three_reasons "http://192.168.1.1/login" (by decide)⟩

end TalkSafeGuard
